import Mathlib

/-!
# Weldqai payment reconciliation (functions/index.js)

A shallow embedding of the Stripe functions of `functions/index.js`: the four
webhook reconciliation handlers, the webhook endpoint and the three callables.

Modelling conventions.

* The document store holds, per user id, the three documents
  `users/<uid>/subscription/credits`, `.../info` and `.../trial`.  A document
  is a record of optional fields (a field that is absent or null is `none`); the
  fields are those the functions name.
* `set(data, merge)` creates the document when it is absent and overwrites the
  named fields, `set(data)` replaces the whole document, `update(data)`
  rejects with NOT_FOUND when the document is absent.
* `FieldValue.increment`, `FieldValue.arrayUnion` and
  `FieldValue.serverTimestamp` follow the Firestore semantics: increment of an
  absent field starts at 0, arrayUnion appends only the elements that are not yet
  in the array, the server timestamp is supplied by the environment.
* Numbers are mathematical integers and rationals.  JavaScript numbers are
  binary64 and Firestore keeps a number as a 64 bit integer or as a double, so
  `parseInt` and `increment` below give the value of the code as long as the
  values involved are safe integers (`isSafeInteger`, magnitude below 2^53);
  beyond that the code rounds or saturates and the model does not.  Statements
  about the amount of `reportCredits` carry that range as a hypothesis.
* The clock, the billing provider and signature verification are parameters
  (`Env`); a failure of `getStripe()` is a failure of the provider call that
  follows it.
* A collection group query on `subscription` finds info documents only (the
  credits and trial documents carry no Stripe id), and returns them in the order
  of their user ids.
* A handler is a function from the store to the store after it and the outcome
  of its promise; console output is not modelled.
-/

namespace Weldqai

/-! ## Firestore values -/

/-- Firestore `Timestamp`: seconds and nanoseconds since the epoch. -/
structure Timestamp where
  seconds : Int
  nanoseconds : Int
deriving DecidableEq, Repr

/-- The smallest `seconds` the `Timestamp` constructor accepts
(0001-01-01T00:00:00Z). -/
def MIN_SECONDS : Int := -62135596800

/-- The largest `seconds` the `Timestamp` constructor accepts
(9999-12-31T23:59:59Z). -/
def MAX_SECONDS : Int := 253402300799

/-- `Timestamp.fromMillis(ms)`: `seconds = floor(ms / 1000)` and the rest in
nanoseconds, passed to the constructor, which throws when `seconds` is outside
`MIN_SECONDS .. MAX_SECONDS` or `nanoseconds` outside `0 .. 999999999`. -/
def Timestamp.fromMillis (milliseconds : Int) : Except String Timestamp :=
  let seconds := Int.fdiv milliseconds 1000
  let nanos := (milliseconds - seconds * 1000) * 1000000
  if seconds < MIN_SECONDS ∨ MAX_SECONDS < seconds then
    .error "Value for argument seconds must be within [-62135596800, 253402300799] inclusive"
  else if nanos < 0 ∨ 999999999 < nanos then
    .error "Value for argument nanoseconds must be within [0, 999999999] inclusive"
  else .ok { seconds := seconds, nanoseconds := nanos }

/-- `Timestamp.toMillis()`. -/
def Timestamp.toMillis (t : Timestamp) : Int :=
  t.seconds * 1000 + Int.fdiv t.nanoseconds 1000000

/-- One entry of `purchaseHistory`.  `purchasedAt` is the instant of
`new Date()` in milliseconds (the code stores its ISO string). -/
structure PurchaseRecord where
  credits : Int
  paymentId : Option String
  purchasedAt : Int
  amount : ℚ
  currency : Option String
deriving DecidableEq

/-- Document `users/<uid>/subscription/credits`. -/
structure CreditsDoc where
  reportCredits : Option Int := none
  purchaseHistory : Option (List PurchaseRecord) := none
  updatedAt : Option Timestamp := none
deriving DecidableEq

/-- Document `users/<uid>/subscription/info`. -/
structure InfoDoc where
  hasAccess : Option Bool := none
  status : Option String := none
  subscriptionType : Option String := none
  stripeSubscriptionId : Option String := none
  stripeCustomerId : Option String := none
  currentPeriodStart : Option Timestamp := none
  currentPeriodEnd : Option Timestamp := none
  cancelAtPeriodEnd : Option Bool := none
  createdAt : Option Timestamp := none
  updatedAt : Option Timestamp := none
  cancelledAt : Option Timestamp := none
  lastPaymentFailed : Option Timestamp := none
deriving DecidableEq

/-- Document `users/<uid>/subscription/trial`. -/
structure TrialDoc where
  status : Option String := none
  convertedAt : Option Timestamp := none
  convertedTo : Option String := none
deriving DecidableEq

/-- The `subscription` collection of one user. -/
structure UserDocs where
  credits : Option CreditsDoc := none
  info : Option InfoDoc := none
  trial : Option TrialDoc := none
deriving DecidableEq

/-- The document store: user id and that user's documents.  A user id is looked
up at its first entry. -/
abbrev Store := List (String × UserDocs)

/-- The documents of user `uid` (all absent for an unknown user). -/
def Store.user (st : Store) (uid : String) : UserDocs :=
  match st with
  | [] => {}
  | (k, v) :: rest => if k = uid then v else Store.user rest uid

/-- Write the documents of user `uid`. -/
def Store.setUser (st : Store) (uid : String) (d : UserDocs) : Store :=
  match st with
  | [] => [(uid, d)]
  | (k, v) :: rest => if k = uid then (k, d) :: rest else (k, v) :: Store.setUser rest uid d

/-- The user ids with an entry in the store. -/
def Store.uids (st : Store) : List String := st.map Prod.fst

/-- `Number.MAX_SAFE_INTEGER`, 2^53 - 1. -/
def MAX_SAFE_INTEGER : Int := 9007199254740991

/-- `Number.isSafeInteger(n)`: an integer that binary64 holds exactly and that
the Firestore client sends as an integer value. -/
def isSafeInteger (n : Int) : Prop := -MAX_SAFE_INTEGER ≤ n ∧ n ≤ MAX_SAFE_INTEGER

instance instDecidableIsSafeInteger (n : Int) : Decidable (isSafeInteger n) :=
  inferInstanceAs (Decidable (-MAX_SAFE_INTEGER ≤ n ∧ n ≤ MAX_SAFE_INTEGER))

/-- `FieldValue.increment(n)` applied to a numeric field, in exact integer
arithmetic.  This is the value Firestore stores when the field, the operand and
their sum are safe integers; outside that range Firestore adds doubles (when the
field or the operand is a double) or saturates at the 64 bit bounds, which is
not modelled. -/
def increment (n : Int) (old : Option Int) : Int := old.getD 0 + n

/-- `FieldValue.arrayUnion(...elems)`: each element that is not yet in the array
is appended. -/
def arrayUnion {α : Type} [DecidableEq α] (old : List α) (elems : List α) : List α :=
  elems.foldl (fun acc e => if e ∈ acc then acc else acc ++ [e]) old

/-- The error of `update()` on a document that does not exist. -/
def NOT_FOUND : String := "5 NOT_FOUND: No document to update"

/-- `users/<uid>/subscription/credits` `.set(f, merge)`: `f` overwrites the
named fields of the document, which is created when absent. -/
def Store.setMergeCredits (st : Store) (uid : String) (f : CreditsDoc → CreditsDoc) : Store :=
  let u := st.user uid
  st.setUser uid { u with credits := some (f (u.credits.getD {})) }

/-- `users/<uid>/subscription/info` `.set(d)`: the document is replaced. -/
def Store.setInfo (st : Store) (uid : String) (d : InfoDoc) : Store :=
  st.setUser uid { st.user uid with info := some d }

/-- `users/<uid>/subscription/info` `.update(f)`. -/
def Store.updateInfo (st : Store) (uid : String) (f : InfoDoc → InfoDoc) : Except String Store :=
  match (st.user uid).info with
  | none => .error NOT_FOUND
  | some d => .ok (st.setUser uid { st.user uid with info := some (f d) })

/-- `users/<uid>/subscription/trial` `.update(f)`. -/
def Store.updateTrial (st : Store) (uid : String) (f : TrialDoc → TrialDoc) : Except String Store :=
  match (st.user uid).trial with
  | none => .error NOT_FOUND
  | some d => .ok (st.setUser uid { st.user uid with trial := some (f d) })

/-- Order of document ids (code points, lexicographic), the order in which a
query returns its documents. -/
def idLt : List Char → List Char → Bool
  | [], [] => false
  | [], _ :: _ => true
  | _ :: _, [] => false
  | a :: as, b :: bs => if a.toNat < b.toNat then true else if b.toNat < a.toNat then false else idLt as bs

/-- `snapshot.docs[0]`: the first document of a query result, by document id. -/
def firstDoc : List String → Option String
  | [] => none
  | u :: rest =>
    match firstDoc rest with
    | none => some u
    | some v => if idLt v.toList u.toList then some v else some u

/-- `collectionGroup('subscription').where('stripeSubscriptionId', '==', id)`:
the users whose info document carries that subscription id. -/
def Store.whereStripeSubscriptionId (st : Store) (id : String) : List String :=
  st.uids.filter fun u =>
    match (st.user u).info with
    | some d => decide (d.stripeSubscriptionId = some id)
    | none => false

/-- `collectionGroup('subscription').where('stripeCustomerId', '==', id)`. -/
def Store.whereStripeCustomerId (st : Store) (id : String) : List String :=
  st.uids.filter fun u =>
    match (st.user u).info with
    | some d => decide (d.stripeCustomerId = some id)
    | none => false

/-! ## JavaScript `parseInt` -/

/-- The white space that `parseInt` skips (StrWhiteSpaceChar). -/
def isStrWhiteSpaceChar (c : Char) : Bool :=
  let n := c.toNat
  n = 0x09 || n = 0x0A || n = 0x0B || n = 0x0C || n = 0x0D || n = 0x20 || n = 0xA0 ||
  n = 0x1680 || (0x2000 ≤ n && n ≤ 0x200A) || n = 0x2028 || n = 0x2029 || n = 0x202F ||
  n = 0x205F || n = 0x3000 || n = 0xFEFF

/-- The value of a digit in the given radix (10 or 16). -/
def digitValue (radix : Nat) (c : Char) : Option Nat :=
  let n := c.toNat
  if 48 ≤ n ∧ n ≤ 57 then some (n - 48)
  else if radix = 16 ∧ 97 ≤ n ∧ n ≤ 102 then some (n - 87)
  else if radix = 16 ∧ 65 ≤ n ∧ n ≤ 70 then some (n - 55)
  else none

/-- The leading digits of the input, as values. -/
def leadingDigits (radix : Nat) : List Char → List Nat
  | [] => []
  | c :: cs =>
    match digitValue radix c with
    | some d => d :: leadingDigits radix cs
    | none => []

/-- `parseInt(string)` without a radix argument; `none` is NaN.  The result is
the mathematical integer of the digits, which is the number JavaScript returns
when it is a safe integer; beyond 2^53 JavaScript returns the nearest binary64
value (Infinity for more than 308 digits), which is not modelled. -/
def parseInt (s : String) : Option Int :=
  let S := s.toList.dropWhile isStrWhiteSpaceChar
  let signed : Int × List Char :=
    match S with
    | '-' :: r => (-1, r)
    | '+' :: r => (1, r)
    | _ => (1, S)
  let based : Nat × List Char :=
    match signed.2 with
    | '0' :: 'x' :: r => (16, r)
    | '0' :: 'X' :: r => (16, r)
    | r => (10, r)
  let Z := leadingDigits based.1 based.2
  if Z = [] then none
  else some (signed.1 * (Z.foldl (fun acc d => acc * based.1 + d) 0 : Nat))

/-! ## Stripe objects and the environment -/

/-- Metadata of a Checkout Session: a string to string map, of which the
handler reads three keys. -/
structure Metadata where
  userId : Option String := none
  type : Option String := none
  credits : Option String := none
deriving DecidableEq

/-- Stripe Checkout Session, the fields the handler reads. -/
structure Session where
  id : String
  metadata : Metadata
  payment_status : String
  amount_total : Int
  currency : Option String
  payment_intent : Option String
  subscription : Option String
  customer : Option String
deriving DecidableEq

/-- Stripe Subscription, the fields the handlers read. -/
structure Subscription where
  id : String
  status : String
  current_period_start : Int
  current_period_end : Int
  cancel_at_period_end : Bool
deriving DecidableEq

/-- Stripe Invoice, the field the handler reads. -/
structure Invoice where
  customer : String
deriving DecidableEq

/-- The type strings the webhook switch knows. -/
def knownTypes : List String :=
  ["checkout.session.completed", "customer.subscription.deleted",
   "customer.subscription.updated", "invoice.payment_failed"]

/-- A verified Stripe event: its `type` and `data.object`.  Stripe fixes the
shape of the object by the type, so an event is one of the four known types with
its object, or an event of another type. -/
inductive Event where
  | checkoutSessionCompleted (object : Session)
  | customerSubscriptionDeleted (object : Subscription)
  | customerSubscriptionUpdated (object : Subscription)
  | invoicePaymentFailed (object : Invoice)
  | other (type : String) (h : type ∉ knownTypes)

/-- The `type` of an event. -/
def Event.type : Event → String
  | .checkoutSessionCompleted _ => "checkout.session.completed"
  | .customerSubscriptionDeleted _ => "customer.subscription.deleted"
  | .customerSubscriptionUpdated _ => "customer.subscription.updated"
  | .invoicePaymentFailed _ => "invoice.payment_failed"
  | .other t _ => t

/-- A JavaScript value of the callable request data.  Numbers are integers. -/
inductive JsValue where
  | undefined
  | null
  | bool (b : Bool)
  | number (n : Int)
  | string (s : String)
deriving DecidableEq

/-- Truthiness: `!v` is false. -/
def JsValue.truthy : JsValue → Bool
  | .undefined => false
  | .null => false
  | .bool b => b
  | .number n => decide (n ≠ 0)
  | .string s => decide (s ≠ "")

/-- Method `toString()` of a value that has one. -/
def JsValue.toString : JsValue → String
  | .undefined => "undefined"
  | .null => "null"
  | .bool b => if b then "true" else "false"
  | .number n => ToString.toString n
  | .string s => s

/-- Arguments of `stripe.checkout.sessions.create`. -/
structure CheckoutParams where
  mode : String
  price : JsValue
  metadataUserId : String
  metadataType : String
  metadataCredits : Option String
  customer_email : Option String
deriving DecidableEq

/-- The session the provider returns. -/
structure ProviderSession where
  id : String
  url : String
deriving DecidableEq

/-- The external collaborators of one invocation. -/
structure Env where
  /-- Instant of `new Date()`, in milliseconds. -/
  now : Int
  /-- Value of `FieldValue.serverTimestamp()` in the n-th write of the invocation. -/
  serverTimestamp : Nat → Timestamp
  /-- Call `stripe.subscriptions.retrieve(id)`. -/
  subscriptionsRetrieve : Option String → Except String Subscription
  /-- Call `stripe.webhooks.constructEvent(rawBody, sig, secret)`. -/
  constructEvent : String → Option String → Except String Event
  /-- Call `stripe.checkout.sessions.create(params)`. -/
  checkoutSessionsCreate : CheckoutParams → Except String ProviderSession
  /-- Call `stripe.billingPortal.sessions.create` for a customer; the url. -/
  billingPortalSessionsCreate : String → Except String String

/-! ## Webhook event handlers -/

/-- The purchase record that the credits branch passes to `arrayUnion`. -/
def purchaseRecord (env : Env) (session : Session) (credits : Int) : PurchaseRecord :=
  { credits := credits
    paymentId := session.payment_intent
    purchasedAt := env.now
    amount := (session.amount_total : ℚ) / 100
    currency := session.currency }

/-- Function `handleCheckoutComplete(session)`: the store after the call and
whether the promise resolved or rejected. -/
def handleCheckoutComplete (env : Env) (session : Session) (st : Store) :
    Store × Except String Unit :=
  let type := session.metadata.type
  match session.metadata.userId with
  | none => (st, .ok ())
  | some userId =>
    if userId = "" then (st, .ok ())
    else if session.payment_status ≠ "paid" then (st, .ok ())
    else if type = some "credits" then
      -- parseInt(undefined) parses the string "undefined"
      match parseInt (session.metadata.credits.getD "undefined") with
      | none =>
        -- FieldValue.increment(NaN) is rejected when the write is validated
        (st, .error "Value for argument FieldValue.increment() is not a valid number.")
      | some credits =>
        (st.setMergeCredits userId fun doc =>
          { reportCredits := some (increment credits doc.reportCredits)
            purchaseHistory :=
              some (arrayUnion (doc.purchaseHistory.getD []) [purchaseRecord env session credits])
            updatedAt := some (env.serverTimestamp 0) }, .ok ())
    else if type = some "subscription" then
      match env.subscriptionsRetrieve session.subscription with
      | .error e => (st, .error e)
      | .ok subscription =>
        -- the object passed to set() is built first: a Timestamp out of range throws
        match Timestamp.fromMillis (subscription.current_period_start * 1000) with
        | .error e => (st, .error e)
        | .ok currentPeriodStart =>
          match Timestamp.fromMillis (subscription.current_period_end * 1000) with
          | .error e => (st, .error e)
          | .ok currentPeriodEnd =>
            let st1 := st.setInfo userId
              { hasAccess := some true
                status := some "active"
                subscriptionType := some "monthly_individual"
                stripeSubscriptionId := session.subscription
                stripeCustomerId := session.customer
                currentPeriodStart := some currentPeriodStart
                currentPeriodEnd := some currentPeriodEnd
                cancelAtPeriodEnd := some subscription.cancel_at_period_end
                createdAt := some (env.serverTimestamp 0)
                updatedAt := some (env.serverTimestamp 0) }
            -- Mark trial as converted
            match st1.updateTrial userId fun t =>
              { t with
                status := some "converted"
                convertedAt := some (env.serverTimestamp 1)
                convertedTo := some "monthly_individual" } with
            | .error e => (st1, .error e)
            | .ok st2 => (st2, .ok ())
    else (st, .ok ())

/-- Function `handleSubscriptionCancelled(subscription)`. -/
def handleSubscriptionCancelled (env : Env) (subscription : Subscription) (st : Store) :
    Store × Except String Unit :=
  let snapshot := st.whereStripeSubscriptionId subscription.id
  match firstDoc snapshot with
  | none => (st, .ok ())
  | some userId =>
    match st.updateInfo userId fun d =>
      { d with
        status := some "cancelled"
        hasAccess := some false
        cancelledAt := some (env.serverTimestamp 0) } with
    | .error e => (st, .error e)
    | .ok st1 => (st1, .ok ())

/-- Function `handleSubscriptionUpdated(subscription)`. -/
def handleSubscriptionUpdated (env : Env) (subscription : Subscription) (st : Store) :
    Store × Except String Unit :=
  let snapshot := st.whereStripeSubscriptionId subscription.id
  match firstDoc snapshot with
  | none => (st, .ok ())
  | some userId =>
    -- the object passed to update() is built first: a Timestamp out of range throws
    match Timestamp.fromMillis (subscription.current_period_start * 1000) with
    | .error e => (st, .error e)
    | .ok currentPeriodStart =>
      match Timestamp.fromMillis (subscription.current_period_end * 1000) with
      | .error e => (st, .error e)
      | .ok currentPeriodEnd =>
        match st.updateInfo userId fun d =>
          { d with
            status := some subscription.status
            hasAccess := some (decide (subscription.status = "active"))
            currentPeriodStart := some currentPeriodStart
            currentPeriodEnd := some currentPeriodEnd
            cancelAtPeriodEnd := some subscription.cancel_at_period_end
            updatedAt := some (env.serverTimestamp 0) } with
        | .error e => (st, .error e)
        | .ok st1 => (st1, .ok ())

/-- Function `handlePaymentFailed(invoice)`. -/
def handlePaymentFailed (env : Env) (invoice : Invoice) (st : Store) :
    Store × Except String Unit :=
  let customerId := invoice.customer
  let snapshot := st.whereStripeCustomerId customerId
  match firstDoc snapshot with
  | none => (st, .ok ())
  | some userId =>
    match st.updateInfo userId fun d =>
      { d with
        status := some "past_due"
        hasAccess := some false
        lastPaymentFailed := some (env.serverTimestamp 0) } with
    | .error e => (st, .error e)
    | .ok st1 => (st1, .ok ())

/-! ## The webhook endpoint -/

/-- The inbound request: raw body and the `stripe-signature` header. -/
structure Request where
  rawBody : String
  signature : Option String

/-- The body of a response: `res.json` of an object with the key `received`, or
`res.send` of a text. -/
inductive Body where
  | json (received : Bool)
  | text (s : String)
deriving DecidableEq

/-- The HTTP response. -/
structure Response where
  status : Nat
  body : Body
deriving DecidableEq

/-- The handlers the switch can call. -/
inductive HandlerName where
  | handleCheckoutComplete
  | handleSubscriptionCancelled
  | handleSubscriptionUpdated
  | handlePaymentFailed
deriving DecidableEq

/-- The switch over `event.type`: the handler called (none in the default
case), the store after it and its outcome. -/
def dispatch (env : Env) (event : Event) (st : Store) :
    Option HandlerName × Store × Except String Unit :=
  match event with
  | .checkoutSessionCompleted object =>
    (some .handleCheckoutComplete, handleCheckoutComplete env object st)
  | .customerSubscriptionDeleted object =>
    (some .handleSubscriptionCancelled, handleSubscriptionCancelled env object st)
  | .customerSubscriptionUpdated object =>
    (some .handleSubscriptionUpdated, handleSubscriptionUpdated env object st)
  | .invoicePaymentFailed object =>
    (some .handlePaymentFailed, handlePaymentFailed env object st)
  | .other _ _ => (none, st, .ok ())

/-- What one webhook request does: the response, the store after it, and the
handler that was called. -/
structure WebhookResult where
  response : Response
  store : Store
  dispatched : Option HandlerName

/-- Function `stripeWebhook(req, res)`. -/
def stripeWebhook (env : Env) (req : Request) (st : Store) : WebhookResult :=
  match env.constructEvent req.rawBody req.signature with
  | .error message =>
    { response := { status := 400, body := .text ("Webhook Error: " ++ message) }
      store := st
      dispatched := none }
  | .ok event =>
    match dispatch env event st with
    | (h, st1, .ok ()) =>
      { response := { status := 200, body := .json true }, store := st1, dispatched := h }
    | (h, st1, .error _) =>
      { response := { status := 500, body := .text "Webhook handler error" }
        store := st1
        dispatched := h }

/-! ## Callables -/

/-- Caller identity of a callable request (`request.auth`). -/
structure Auth where
  uid : String
  email : Option String
deriving DecidableEq

/-- The object `request.data`, of which `priceId` and `credits` are read. -/
structure CallData where
  priceId : JsValue := .undefined
  credits : JsValue := .undefined
deriving DecidableEq

/-- A callable request; `data` is `none` when the client sent none (null). -/
structure CallableRequest where
  auth : Option Auth
  data : Option CallData
deriving DecidableEq

/-- What a callable did outside itself. -/
inductive Effect where
  | checkoutSessionsCreate (params : CheckoutParams)
  | billingPortalSessionsCreate (customer : String)
  | storeRead (uid : String)
deriving DecidableEq

/-- The outcome of a callable: the provider calls and store reads it made, and
the value returned or the message of the error thrown. -/
structure CallOutcome (α : Type) where
  effects : List Effect
  result : Except String α

/-- The error of destructuring `request.data` when it is null. -/
def dataTypeError : String := "TypeError: Cannot destructure property of request.data as it is null."

/-- Function `createCheckoutSession(request)`. -/
def createCheckoutSession (env : Env) (request : CallableRequest) : CallOutcome ProviderSession :=
  match request.auth with
  | none => { effects := [], result := .error "User must be authenticated" }
  | some auth =>
    let userId := auth.uid
    let userEmail := auth.email
    match request.data with
    | none => { effects := [], result := .error dataTypeError }
    | some data =>
      if !data.priceId.truthy || !data.credits.truthy then
        { effects := [], result := .error "priceId and credits are required" }
      else
        let params : CheckoutParams :=
          { mode := "payment"
            price := data.priceId
            metadataUserId := userId
            metadataType := "credits"
            metadataCredits := some data.credits.toString
            customer_email := userEmail }
        match env.checkoutSessionsCreate params with
        | .ok session => { effects := [.checkoutSessionsCreate params], result := .ok session }
        | .error message =>
          { effects := [.checkoutSessionsCreate params]
            result := .error ("Unable to create checkout session: " ++ message) }

/-- Function `createSubscription(request)`. -/
def createSubscription (env : Env) (request : CallableRequest) : CallOutcome ProviderSession :=
  match request.auth with
  | none => { effects := [], result := .error "User must be authenticated" }
  | some auth =>
    let userId := auth.uid
    match request.data with
    | none => { effects := [], result := .error dataTypeError }
    | some data =>
      if !data.priceId.truthy then
        { effects := [], result := .error "priceId is required" }
      else
        let params : CheckoutParams :=
          { mode := "subscription"
            price := data.priceId
            metadataUserId := userId
            metadataType := "subscription"
            metadataCredits := none
            customer_email := auth.email }
        match env.checkoutSessionsCreate params with
        | .ok session => { effects := [.checkoutSessionsCreate params], result := .ok session }
        | .error message =>
          { effects := [.checkoutSessionsCreate params]
            result := .error ("Unable to create subscription: " ++ message) }

/-- Function `createBillingPortalSession(request)`; the value returned is the
url. -/
def createBillingPortalSession (env : Env) (request : CallableRequest) (st : Store) :
    CallOutcome String :=
  match request.auth with
  | none => { effects := [], result := .error "User must be authenticated" }
  | some auth =>
    let userId := auth.uid
    let customerId := (st.user userId).info.bind fun d => d.stripeCustomerId
    match customerId with
    | none =>
      { effects := [.storeRead userId]
        result := .error ("Unable to create billing portal session: " ++ "No active subscription found") }
    | some customerId =>
      if customerId = "" then
        { effects := [.storeRead userId]
          result := .error ("Unable to create billing portal session: " ++ "No active subscription found") }
      else
        match env.billingPortalSessionsCreate customerId with
        | .ok url =>
          { effects := [.storeRead userId, .billingPortalSessionsCreate customerId], result := .ok url }
        | .error message =>
          { effects := [.storeRead userId, .billingPortalSessionsCreate customerId]
            result := .error ("Unable to create billing portal session: " ++ message) }

/-! ## Observations and example inputs -/

/-- The `reportCredits` of a user, 0 when the field or the document is absent. -/
def reportCreditsOf (st : Store) (uid : String) : Int :=
  ((st.user uid).credits.bind fun d => d.reportCredits).getD 0

/-- The `purchaseHistory` of a user, empty when the field or the document is
absent. -/
def purchaseHistoryOf (st : Store) (uid : String) : List PurchaseRecord :=
  ((st.user uid).credits.bind fun d => d.purchaseHistory).getD []

/-- The invariant of the subscription info records: `hasAccess` is true iff
`status` is `active`. -/
def AccessInvariant (st : Store) : Prop :=
  ∀ uid d, (st.user uid).info = some d → (d.hasAccess = some true ↔ d.status = some "active")

/-- An example subscription, as the provider returns it. -/
def exSubscription : Subscription :=
  { id := "sub_1"
    status := "active"
    current_period_start := 1700000000
    current_period_end := 1702592000
    cancel_at_period_end := false }

/-- An example environment: the provider answers every call, verification
rejects every request. -/
def exEnv : Env :=
  { now := 1700000000000
    serverTimestamp := fun _ => { seconds := 1700000000, nanoseconds := 0 }
    subscriptionsRetrieve := fun _ => .ok exSubscription
    constructEvent := fun _ _ => .error "No signatures found matching the expected signature"
    checkoutSessionsCreate := fun _ => .ok { id := "cs_1", url := "https://checkout.stripe.com/c/cs_1" }
    billingPortalSessionsCreate := fun _ => .ok "https://billing.stripe.com/p/session_1" }

/-- The credit purchase of the scenario: 10 credits for 9.99 usd. -/
def exCreditsSession : Session :=
  { id := "cs_1"
    metadata := { userId := some "u1", type := some "credits", credits := some "10" }
    payment_status := "paid"
    amount_total := 999
    currency := some "usd"
    payment_intent := some "pi_1"
    subscription := none
    customer := none }

/-- An unpaid checkout session of an existing user. -/
def exUnpaidSession : Session :=
  { exCreditsSession with payment_status := "unpaid" }

/-- A store in which user u1 has 10 credits and no purchase history. -/
def exStore : Store :=
  [("u0", {}), ("u1", { credits := some { reportCredits := some 10 } })]

/-- A store in which the purchase of `exCreditsSession` at the instant of
`exEnv` is already recorded for user u1. -/
def exReplayedStore : Store :=
  [("u1",
    { credits := some
        { reportCredits := some 10
          purchaseHistory := some
            [{ credits := 10
               paymentId := some "pi_1"
               purchasedAt := 1700000000000
               amount := 9.99
               currency := some "usd" }] } })]

/-- A paid credits session whose metadata asks for minus five credits. -/
def exNegativeSession : Session :=
  { exCreditsSession with
    metadata := { userId := some "u1", type := some "credits", credits := some "-5" } }

/-- The update of `handleSubscriptionCancelled`. -/
def cancelledFields (env : Env) (d : InfoDoc) : InfoDoc :=
  { d with
    status := some "cancelled"
    hasAccess := some false
    cancelledAt := some (env.serverTimestamp 0) }

/-- The update of `handleSubscriptionUpdated`, for period values that
`Timestamp.fromMillis` accepts. -/
def updatedFields (env : Env) (subscription : Subscription) (d : InfoDoc) : InfoDoc :=
  { d with
    status := some subscription.status
    hasAccess := some (decide (subscription.status = "active"))
    currentPeriodStart := (Timestamp.fromMillis (subscription.current_period_start * 1000)).toOption
    currentPeriodEnd := (Timestamp.fromMillis (subscription.current_period_end * 1000)).toOption
    cancelAtPeriodEnd := some subscription.cancel_at_period_end
    updatedAt := some (env.serverTimestamp 0) }

/-- The update of `handlePaymentFailed`. -/
def paymentFailedFields (env : Env) (d : InfoDoc) : InfoDoc :=
  { d with
    status := some "past_due"
    hasAccess := some false
    lastPaymentFailed := some (env.serverTimestamp 0) }

/-- The info document that the subscription branch of `handleCheckoutComplete`
writes, for period values that `Timestamp.fromMillis` accepts. -/
def checkoutInfo (env : Env) (session : Session) (subscription : Subscription) : InfoDoc :=
  { hasAccess := some true
    status := some "active"
    subscriptionType := some "monthly_individual"
    stripeSubscriptionId := session.subscription
    stripeCustomerId := session.customer
    currentPeriodStart := (Timestamp.fromMillis (subscription.current_period_start * 1000)).toOption
    currentPeriodEnd := (Timestamp.fromMillis (subscription.current_period_end * 1000)).toOption
    cancelAtPeriodEnd := some subscription.cancel_at_period_end
    createdAt := some (env.serverTimestamp 0)
    updatedAt := some (env.serverTimestamp 0) }

/-- The update of the trial document in `handleCheckoutComplete`. -/
def convertedFields (env : Env) (t : TrialDoc) : TrialDoc :=
  { t with
    status := some "converted"
    convertedAt := some (env.serverTimestamp 1)
    convertedTo := some "monthly_individual" }

/-- A store in which user u1 has an active subscription sub_1 of customer
cus_1, and 10 credits. -/
def exInfoStore : Store :=
  [("u1",
    { credits := some { reportCredits := some 10 }
      info := some
        { hasAccess := some true
          status := some "active"
          subscriptionType := some "monthly_individual"
          stripeSubscriptionId := some "sub_1"
          stripeCustomerId := some "cus_1" } })]

/-- The subscription object of the scenario: sub_1, past due. -/
def exPastDue : Subscription :=
  { exSubscription with status := "past_due" }

/-- A subscription that no record carries. -/
def exUnknownSubscription : Subscription :=
  { exSubscription with id := "sub_unknown" }

/-- An invoice of a customer that no record carries. -/
def exUnknownInvoice : Invoice :=
  { customer := "cus_unknown" }

/-- The environment `exEnv` in which verification yields the given event. -/
def exEnvVerified (event : Event) : Env :=
  { exEnv with constructEvent := fun _ _ => .ok event }

/-- An environment in which verification yields the given event and the
provider fails to return a subscription. -/
def exEnvProviderDown (event : Event) : Env :=
  { exEnv with
    constructEvent := fun _ _ => .ok event
    subscriptionsRetrieve := fun _ => .error "An error occurred with our connection to Stripe." }

/-- An example request. -/
def exRequest : Request :=
  { rawBody := "payload", signature := some "t=1700000000,v1=5257a869" }

/-- An event of a type outside the four of the switch. -/
def exOtherEvent : Event := .other "customer.created" (by decide)

/-- A paid subscription checkout of user u1. -/
def exSubscriptionSession : Session :=
  { id := "cs_2"
    metadata := { userId := some "u1", type := some "subscription" }
    payment_status := "paid"
    amount_total := 2900
    currency := some "usd"
    payment_intent := none
    subscription := some "sub_1"
    customer := some "cus_1" }

/-- A store in which user u1 has a trial record. -/
def exTrialStore : Store :=
  [("u1", { trial := some { status := some "trial" } })]

/-- An authenticated request for zero credits at a price. -/
def exZeroCreditsRequest : CallableRequest :=
  { auth := some { uid := "u1", email := some "u1@example.com" }
    data := some { priceId := .string "price_1", credits := .number 0 } }

/-- A request without caller identity. -/
def exAnonymousRequest : CallableRequest :=
  { auth := none
    data := some { priceId := .string "price_1", credits := .number 10 } }

/-- An authenticated request for 10 credits at a price. -/
def exCheckoutRequest : CallableRequest :=
  { auth := some { uid := "u1", email := some "u1@example.com" }
    data := some { priceId := .string "price_1", credits := .number 10 } }

/-! ## Lemmas on the store -/

theorem user_setUser (st : Store) (u v : String) (d : UserDocs) :
    (st.setUser u d).user v = if v = u then d else st.user v := by
  induction st with
  | nil =>
    by_cases h : v = u
    · simp [Store.setUser, Store.user, h]
    · have h2 : ¬ u = v := fun e => h e.symm
      simp [Store.setUser, Store.user, h, h2]
  | cons p rest ih =>
    obtain ⟨k, w⟩ := p
    by_cases hk : k = u
    · by_cases h : v = u
      · simp [Store.setUser, Store.user, hk, h]
      · have h2 : ¬ u = v := fun e => h e.symm
        simp [Store.setUser, Store.user, hk, h, h2]
    · by_cases hv : k = v
      · have h : ¬ v = u := fun e => hk (hv.trans e)
        simp [Store.setUser, Store.user, hk, hv, h]
      · simp [Store.setUser, Store.user, hk, hv, ih]

theorem user_setUser_self (st : Store) (u : String) (d : UserDocs) :
    (st.setUser u d).user u = d := by
  simp [user_setUser]

theorem user_setUser_ne (st : Store) (u v : String) (d : UserDocs) (h : v ≠ u) :
    (st.setUser u d).user v = st.user v := by
  simp [user_setUser, h]

theorem firstDoc_eq_none (l : List String) : firstDoc l = none ↔ l = [] := by
  cases l with
  | nil => simp [firstDoc]
  | cons u rest =>
    simp only [firstDoc]
    cases firstDoc rest with
    | none => simp
    | some v => simp only []; split_ifs <;> simp

theorem firstDoc_mem (l : List String) (u : String) (h : firstDoc l = some u) : u ∈ l := by
  induction l generalizing u with
  | nil => simp [firstDoc] at h
  | cons a rest ih =>
    simp only [firstDoc] at h
    cases hr : firstDoc rest with
    | none =>
      rw [hr] at h
      simp at h
      simp [h]
    | some v =>
      rw [hr] at h
      simp only [] at h
      split_ifs at h
      · injection h with h
        subst h
        exact List.mem_cons_of_mem _ (ih v hr)
      · injection h with h
        simp [h]

/-- Epoch seconds inside the range of the `Timestamp` constructor make the
timestamp of that second. -/
theorem fromMillis_seconds (secs : Int) (h1 : MIN_SECONDS ≤ secs) (h2 : secs ≤ MAX_SECONDS) :
    Timestamp.fromMillis (secs * 1000) = .ok { seconds := secs, nanoseconds := 0 } := by
  have h : Int.fdiv (secs * 1000) 1000 = secs := by
    rw [Int.fdiv_eq_ediv _ (by decide : (0 : Int) ≤ 1000)]
    exact Int.mul_ediv_cancel secs (by decide)
  have hn : ¬ (secs < MIN_SECONDS ∨ MAX_SECONDS < secs) := by omega
  simp [Timestamp.fromMillis, h, hn]

/-- Epoch seconds outside the range make `Timestamp.fromMillis` throw. -/
theorem fromMillis_out_of_range (secs : Int) (h : secs < MIN_SECONDS ∨ MAX_SECONDS < secs) :
    ∃ e, Timestamp.fromMillis (secs * 1000) = .error e := by
  have hd : Int.fdiv (secs * 1000) 1000 = secs := by
    rw [Int.fdiv_eq_ediv _ (by decide : (0 : Int) ≤ 1000)]
    exact Int.mul_ediv_cancel secs (by decide)
  refine ⟨"Value for argument seconds must be within [-62135596800, 253402300799] inclusive", ?_⟩
  simp [Timestamp.fromMillis, hd, h]

theorem toMillis_seconds (secs : Int) :
    Timestamp.toMillis { seconds := secs, nanoseconds := 0 } = secs * 1000 := by
  simp [Timestamp.toMillis, Int.fdiv]

/-- The credits branch of `handleCheckoutComplete`, as one merge write. -/
theorem checkout_credits_eq (env : Env) (s : Session) (st : Store) (uid : String) (c : Int)
    (hu : s.metadata.userId = some uid) (hne : uid ≠ "") (hp : s.payment_status = "paid")
    (ht : s.metadata.type = some "credits")
    (hc : parseInt (s.metadata.credits.getD "undefined") = some c) :
    handleCheckoutComplete env s st =
      (st.setMergeCredits uid fun doc =>
        { reportCredits := some (increment c doc.reportCredits)
          purchaseHistory := some (arrayUnion (doc.purchaseHistory.getD []) [purchaseRecord env s c])
          updatedAt := some (env.serverTimestamp 0) }, .ok ()) := by
  simp [handleCheckoutComplete, hu, hne, hp, ht, hc]

theorem checkout_credits_reportCredits (env : Env) (s : Session) (st : Store) (uid : String)
    (c : Int) (hu : s.metadata.userId = some uid) (hne : uid ≠ "")
    (hp : s.payment_status = "paid") (ht : s.metadata.type = some "credits")
    (hc : parseInt (s.metadata.credits.getD "undefined") = some c) :
    reportCreditsOf (handleCheckoutComplete env s st).1 uid = reportCreditsOf st uid + c := by
  rw [checkout_credits_eq env s st uid c hu hne hp ht hc]
  simp only [reportCreditsOf, Store.setMergeCredits, user_setUser_self, increment]
  cases (st.user uid).credits <;> simp

theorem checkout_credits_history (env : Env) (s : Session) (st : Store) (uid : String)
    (c : Int) (hu : s.metadata.userId = some uid) (hne : uid ≠ "")
    (hp : s.payment_status = "paid") (ht : s.metadata.type = some "credits")
    (hc : parseInt (s.metadata.credits.getD "undefined") = some c) :
    purchaseHistoryOf (handleCheckoutComplete env s st).1 uid =
      arrayUnion (purchaseHistoryOf st uid) [purchaseRecord env s c] := by
  rw [checkout_credits_eq env s st uid c hu hne hp ht hc]
  simp only [purchaseHistoryOf, Store.setMergeCredits, user_setUser_self]
  cases (st.user uid).credits <;> simp

theorem arrayUnion_singleton_mem {α : Type} [DecidableEq α] (old : List α) (e : α)
    (h : e ∈ old) : arrayUnion old [e] = old := by
  simp [arrayUnion, h]

theorem arrayUnion_singleton_not_mem {α : Type} [DecidableEq α] (old : List α) (e : α)
    (h : e ∉ old) : arrayUnion old [e] = old ++ [e] := by
  simp [arrayUnion, h]

theorem mem_arrayUnion_singleton {α : Type} [DecidableEq α] (old : List α) (e : α) :
    e ∈ arrayUnion old [e] := by
  by_cases h : e ∈ old <;> simp [arrayUnion, h]

/-! ## Checkout completed: unpaid sessions and credit purchases -/

/-- C1: for a checkout session whose payment_status is not paid,
handleCheckoutComplete returns normally and leaves the whole document store
unchanged, whatever metadata.type and metadata.userId are. -/
theorem C1_unpaid_checkout_leaves_store_unchanged (env : Env) (session : Session) (st : Store)
    (h : session.payment_status ≠ "paid") :
    handleCheckoutComplete env session st = (st, .ok ()) := by
  unfold handleCheckoutComplete
  cases session.metadata.userId with
  | none => rfl
  | some uid =>
    by_cases hu : uid = ""
    · simp [hu]
    · simp [hu, h]

/-- An unpaid session of user u1 leaves the example store as it is. -/
theorem C1_unpaid_checkout_leaves_store_unchanged_witness :
    exUnpaidSession.payment_status ≠ "paid" ∧
      handleCheckoutComplete exEnv exUnpaidSession exStore = (exStore, .ok ()) :=
  ⟨by decide, C1_unpaid_checkout_leaves_store_unchanged exEnv exUnpaidSession exStore (by decide)⟩

/-- C2 as stated fails: the purchase history of u1 already holds the record of
this purchase at this instant, and after the paid credits session its length
is not one greater (arrayUnion adds nothing). -/
theorem C2_counterexample :
    exCreditsSession.payment_status = "paid" ∧
    exCreditsSession.metadata.type = some "credits" ∧
    exCreditsSession.metadata.userId = some "u1" ∧
    (purchaseHistoryOf (handleCheckoutComplete exEnv exCreditsSession exReplayedStore).1 "u1").length
      ≠ (purchaseHistoryOf exReplayedStore "u1").length + 1 := by
  refine ⟨rfl, rfl, rfl, ?_⟩
  rw [checkout_credits_history exEnv exCreditsSession exReplayedStore "u1" 10 rfl (by decide) rfl
    rfl (by decide)]
  have hmem : purchaseRecord exEnv exCreditsSession 10 ∈ purchaseHistoryOf exReplayedStore "u1" := by
    simp [purchaseHistoryOf, exReplayedStore, Store.user, purchaseRecord, exEnv, exCreditsSession]
    norm_num
  rw [arrayUnion_singleton_mem _ _ hmem]
  omega

/-- C2, amended: for a paid credits session with a non-empty userId whose
metadata.credits parses to the integer c, where c, the prior reportCredits of
the user (0 if absent) and their sum are safe integers, handleCheckoutComplete
returns normally, the reportCredits of the user is the prior value plus c (again
a safe integer), and the purchase history is the prior one with the new record
appended (length one greater) when no identical record is in it, and is
unchanged when an identical record is already in it. -/
theorem C2_credit_purchase_adds_credits_and_record (env : Env) (s : Session) (st : Store)
    (uid : String) (c : Int) (hu : s.metadata.userId = some uid) (hne : uid ≠ "")
    (hp : s.payment_status = "paid") (ht : s.metadata.type = some "credits")
    (hc : parseInt (s.metadata.credits.getD "undefined") = some c)
    (hsafe : isSafeInteger c ∧ isSafeInteger (reportCreditsOf st uid) ∧
      isSafeInteger (reportCreditsOf st uid + c)) :
    (handleCheckoutComplete env s st).2 = .ok () ∧
    reportCreditsOf (handleCheckoutComplete env s st).1 uid = reportCreditsOf st uid + c ∧
    isSafeInteger (reportCreditsOf (handleCheckoutComplete env s st).1 uid) ∧
    (purchaseRecord env s c ∉ purchaseHistoryOf st uid →
      purchaseHistoryOf (handleCheckoutComplete env s st).1 uid
          = purchaseHistoryOf st uid ++ [purchaseRecord env s c] ∧
        (purchaseHistoryOf (handleCheckoutComplete env s st).1 uid).length
          = (purchaseHistoryOf st uid).length + 1) ∧
    (purchaseRecord env s c ∈ purchaseHistoryOf st uid →
      purchaseHistoryOf (handleCheckoutComplete env s st).1 uid = purchaseHistoryOf st uid) := by
  have hrc := checkout_credits_reportCredits env s st uid c hu hne hp ht hc
  refine ⟨?_, hrc, ?_, ?_, ?_⟩
  · rw [checkout_credits_eq env s st uid c hu hne hp ht hc]
  · rw [hrc]
    exact hsafe.2.2
  · intro hnot
    rw [checkout_credits_history env s st uid c hu hne hp ht hc,
      arrayUnion_singleton_not_mem _ _ hnot]
    simp
  · intro hmem
    rw [checkout_credits_history env s st uid c hu hne hp ht hc,
      arrayUnion_singleton_mem _ _ hmem]

/-- The scenario session in the example store: 10, the prior 10 and 20 are safe
integers; 10 more credits, one more record. -/
theorem C2_credit_purchase_adds_credits_and_record_witness :
    (isSafeInteger 10 ∧ isSafeInteger (reportCreditsOf exStore "u1") ∧
      isSafeInteger (reportCreditsOf exStore "u1" + 10)) ∧
    reportCreditsOf (handleCheckoutComplete exEnv exCreditsSession exStore).1 "u1"
        = reportCreditsOf exStore "u1" + 10 ∧
      (purchaseHistoryOf (handleCheckoutComplete exEnv exCreditsSession exStore).1 "u1").length
        = (purchaseHistoryOf exStore "u1").length + 1 :=
  have hsafe : isSafeInteger 10 ∧ isSafeInteger (reportCreditsOf exStore "u1") ∧
      isSafeInteger (reportCreditsOf exStore "u1" + 10) := by decide
  have h := C2_credit_purchase_adds_credits_and_record exEnv exCreditsSession exStore "u1" 10
    rfl (by decide) rfl rfl (by decide) hsafe
  ⟨hsafe, h.2.1, (h.2.2.2.1 (by simp [purchaseHistoryOf, exStore, Store.user])).2⟩

/-- C3 as stated fails: running handleCheckoutComplete twice on the same paid
credits session of 10 credits gives 20 reportCredits, once gives 10. -/
theorem C3_counterexample :
    reportCreditsOf (handleCheckoutComplete exEnv exCreditsSession
        (handleCheckoutComplete exEnv exCreditsSession []).1).1 "u1" = 20 ∧
    reportCreditsOf (handleCheckoutComplete exEnv exCreditsSession []).1 "u1" = 10 := by
  rw [checkout_credits_reportCredits exEnv exCreditsSession _ "u1" 10 rfl (by decide) rfl rfl
      (by decide),
    checkout_credits_reportCredits exEnv exCreditsSession _ "u1" 10 rfl (by decide) rfl rfl
      (by decide)]
  decide

/-- C3, amended: the handler has no deduplication.  For a paid credits session
whose metadata.credits parses to c, where c, the prior reportCredits, the prior
plus c and the prior plus twice c are safe integers, running
handleCheckoutComplete twice in succession (at any two instants) gives the
reportCredits of one run plus c once more, that is the prior plus twice c, so the
two runs agree with one run only when c is 0. -/
theorem C3_replay_adds_credits_again (env1 env2 : Env) (s : Session) (st : Store)
    (uid : String) (c : Int) (hu : s.metadata.userId = some uid) (hne : uid ≠ "")
    (hp : s.payment_status = "paid") (ht : s.metadata.type = some "credits")
    (hc : parseInt (s.metadata.credits.getD "undefined") = some c)
    (hsafe : isSafeInteger c ∧ isSafeInteger (reportCreditsOf st uid) ∧
      isSafeInteger (reportCreditsOf st uid + c) ∧
      isSafeInteger (reportCreditsOf st uid + c + c)) :
    reportCreditsOf (handleCheckoutComplete env2 s (handleCheckoutComplete env1 s st).1).1 uid
        = reportCreditsOf (handleCheckoutComplete env1 s st).1 uid + c ∧
    reportCreditsOf (handleCheckoutComplete env2 s (handleCheckoutComplete env1 s st).1).1 uid
        = reportCreditsOf st uid + c + c ∧
    isSafeInteger
      (reportCreditsOf (handleCheckoutComplete env2 s (handleCheckoutComplete env1 s st).1).1 uid) ∧
    (reportCreditsOf (handleCheckoutComplete env2 s (handleCheckoutComplete env1 s st).1).1 uid
        = reportCreditsOf (handleCheckoutComplete env1 s st).1 uid ↔ c = 0) := by
  have h1 := checkout_credits_reportCredits env1 s st uid c hu hne hp ht hc
  have h2 := checkout_credits_reportCredits env2 s (handleCheckoutComplete env1 s st).1 uid c
    hu hne hp ht hc
  refine ⟨h2, ?_, ?_, ?_⟩
  · rw [h2, h1]
  · rw [h2, h1]
    exact hsafe.2.2.2
  · rw [h2]
    omega

/-- The scenario session replayed in the example store (10, 20 and 30 are safe
integers) adds 10 credits again. -/
theorem C3_replay_adds_credits_again_witness :
    (isSafeInteger 10 ∧ isSafeInteger (reportCreditsOf exStore "u1") ∧
      isSafeInteger (reportCreditsOf exStore "u1" + 10) ∧
      isSafeInteger (reportCreditsOf exStore "u1" + 10 + 10)) ∧
    reportCreditsOf (handleCheckoutComplete exEnv exCreditsSession
        (handleCheckoutComplete exEnv exCreditsSession exStore).1).1 "u1"
      = reportCreditsOf (handleCheckoutComplete exEnv exCreditsSession exStore).1 "u1" + 10 :=
  have hsafe : isSafeInteger 10 ∧ isSafeInteger (reportCreditsOf exStore "u1") ∧
      isSafeInteger (reportCreditsOf exStore "u1" + 10) ∧
      isSafeInteger (reportCreditsOf exStore "u1" + 10 + 10) := by decide
  ⟨hsafe, (C3_replay_adds_credits_again exEnv exEnv exCreditsSession exStore "u1" 10
    rfl (by decide) rfl rfl (by decide) hsafe).1⟩

/-- C4: for a paid credits session (non-empty userId, metadata.credits parsing
to c, a safe integer) the purchase history after handleCheckoutComplete is the
arrayUnion of the prior history with one record, which is in the history
afterwards and has credits c, paymentId session.payment_intent, amount
session.amount_total / 100 as a rational, and currency session.currency; for
the session of the scenario (u1, credits 10, amount_total 999, usd, pi_1) that
record has credits 10, paymentId pi_1, amount 9.99 and currency usd in every
store, and reportCredits grows by 10 in every store where it and its sum with 10
are safe integers. -/
theorem C4_purchase_record_fields :
    (∀ (env : Env) (s : Session) (st : Store) (uid : String) (c : Int),
      s.metadata.userId = some uid → uid ≠ "" → s.payment_status = "paid" →
      s.metadata.type = some "credits" →
      parseInt (s.metadata.credits.getD "undefined") = some c → isSafeInteger c →
      ∃ r : PurchaseRecord,
        purchaseHistoryOf (handleCheckoutComplete env s st).1 uid
          = arrayUnion (purchaseHistoryOf st uid) [r] ∧
        r ∈ purchaseHistoryOf (handleCheckoutComplete env s st).1 uid ∧
        r.credits = c ∧ isSafeInteger r.credits ∧ r.paymentId = s.payment_intent ∧
        r.amount = (s.amount_total : ℚ) / 100 ∧ r.currency = s.currency ∧
        r.purchasedAt = env.now) ∧
    (∀ (env : Env) (st : Store),
      purchaseHistoryOf (handleCheckoutComplete env exCreditsSession st).1 "u1"
        = arrayUnion (purchaseHistoryOf st "u1")
            [{ credits := 10, paymentId := some "pi_1", purchasedAt := env.now,
               amount := 9.99, currency := some "usd" }] ∧
      (isSafeInteger (reportCreditsOf st "u1") ∧ isSafeInteger (reportCreditsOf st "u1" + 10) →
        reportCreditsOf (handleCheckoutComplete env exCreditsSession st).1 "u1"
            = reportCreditsOf st "u1" + 10 ∧
          isSafeInteger (reportCreditsOf (handleCheckoutComplete env exCreditsSession st).1 "u1"))) := by
  constructor
  · intro env s st uid c hu hne hp ht hc hsafe
    refine ⟨purchaseRecord env s c, checkout_credits_history env s st uid c hu hne hp ht hc, ?_,
      rfl, hsafe, rfl, rfl, rfl, rfl⟩
    rw [checkout_credits_history env s st uid c hu hne hp ht hc]
    exact mem_arrayUnion_singleton _ _
  · intro env st
    have hrc := checkout_credits_reportCredits env exCreditsSession st "u1" 10 rfl (by decide)
      rfl rfl (by decide)
    refine ⟨?_, fun hsafe => ⟨hrc, by rw [hrc]; exact hsafe.2⟩⟩
    rw [checkout_credits_history env exCreditsSession st "u1" 10 rfl (by decide) rfl rfl
      (by decide)]
    have hr : purchaseRecord env exCreditsSession 10
        = { credits := 10, paymentId := some "pi_1", purchasedAt := env.now,
            amount := 9.99, currency := some "usd" } := by
      simp [purchaseRecord, exCreditsSession]
      norm_num
    rw [hr]

/-- The record of the scenario session in the example store, and the 10 credits
it adds to the 10 of u1. -/
theorem C4_purchase_record_fields_witness :
    (∃ r : PurchaseRecord,
      purchaseHistoryOf (handleCheckoutComplete exEnv exCreditsSession exStore).1 "u1"
        = arrayUnion (purchaseHistoryOf exStore "u1") [r] ∧
      r ∈ purchaseHistoryOf (handleCheckoutComplete exEnv exCreditsSession exStore).1 "u1" ∧
      r.credits = 10 ∧ isSafeInteger r.credits ∧ r.paymentId = exCreditsSession.payment_intent ∧
      r.amount = (exCreditsSession.amount_total : ℚ) / 100 ∧
      r.currency = exCreditsSession.currency ∧ r.purchasedAt = exEnv.now) ∧
    (reportCreditsOf (handleCheckoutComplete exEnv exCreditsSession exStore).1 "u1"
        = reportCreditsOf exStore "u1" + 10 ∧
      isSafeInteger (reportCreditsOf (handleCheckoutComplete exEnv exCreditsSession exStore).1 "u1")) :=
  ⟨C4_purchase_record_fields.1 exEnv exCreditsSession exStore "u1" 10
      rfl (by decide) rfl rfl (by decide) (by decide),
    (C4_purchase_record_fields.2 exEnv exStore).2 (by decide)⟩

/-! ## The stores a handler can leave -/

theorem handleSubscriptionCancelled_store (env : Env) (sub : Subscription) (st : Store) :
    (handleSubscriptionCancelled env sub st).1 = st ∨
      ∃ uid d, firstDoc (st.whereStripeSubscriptionId sub.id) = some uid ∧
        (st.user uid).info = some d ∧
        handleSubscriptionCancelled env sub st =
          (st.setUser uid { st.user uid with info := some (cancelledFields env d) }, .ok ()) := by
  cases hf : firstDoc (st.whereStripeSubscriptionId sub.id) with
  | none => left; simp [handleSubscriptionCancelled, hf]
  | some uid =>
    cases hi : (st.user uid).info with
    | none => left; simp [handleSubscriptionCancelled, hf, Store.updateInfo, hi]
    | some d =>
      right
      exact ⟨uid, d, rfl, hi, by simp [handleSubscriptionCancelled, hf, Store.updateInfo, hi, cancelledFields]⟩

/-- What `handleSubscriptionUpdated` does when the lookup returns `uid`, the
info document exists and both period values make a Timestamp. -/
theorem handleSubscriptionUpdated_found (env : Env) (sub : Subscription) (st : Store)
    (uid : String) (d : InfoDoc) (ts te : Timestamp)
    (hf : firstDoc (st.whereStripeSubscriptionId sub.id) = some uid)
    (hi : (st.user uid).info = some d)
    (hs : Timestamp.fromMillis (sub.current_period_start * 1000) = .ok ts)
    (he : Timestamp.fromMillis (sub.current_period_end * 1000) = .ok te) :
    handleSubscriptionUpdated env sub st =
      (st.setUser uid { st.user uid with info := some (updatedFields env sub d) }, .ok ()) := by
  simp [handleSubscriptionUpdated, hf, Store.updateInfo, hi, updatedFields, hs, he,
    Except.toOption]

theorem handleSubscriptionUpdated_store (env : Env) (sub : Subscription) (st : Store) :
    (handleSubscriptionUpdated env sub st).1 = st ∨
      ∃ uid d, firstDoc (st.whereStripeSubscriptionId sub.id) = some uid ∧
        (st.user uid).info = some d ∧
        handleSubscriptionUpdated env sub st =
          (st.setUser uid { st.user uid with info := some (updatedFields env sub d) }, .ok ()) := by
  cases hf : firstDoc (st.whereStripeSubscriptionId sub.id) with
  | none => left; simp [handleSubscriptionUpdated, hf]
  | some uid =>
    cases hs : Timestamp.fromMillis (sub.current_period_start * 1000) with
    | error e => left; simp [handleSubscriptionUpdated, hf, hs]
    | ok ts =>
      cases he : Timestamp.fromMillis (sub.current_period_end * 1000) with
      | error e => left; simp [handleSubscriptionUpdated, hf, hs, he]
      | ok te =>
        cases hi : (st.user uid).info with
        | none => left; simp [handleSubscriptionUpdated, hf, hs, he, Store.updateInfo, hi]
        | some d =>
          right
          exact ⟨uid, d, rfl, hi, handleSubscriptionUpdated_found env sub st uid d ts te hf hi hs he⟩

theorem handlePaymentFailed_store (env : Env) (inv : Invoice) (st : Store) :
    (handlePaymentFailed env inv st).1 = st ∨
      ∃ uid d, firstDoc (st.whereStripeCustomerId inv.customer) = some uid ∧
        (st.user uid).info = some d ∧
        handlePaymentFailed env inv st =
          (st.setUser uid { st.user uid with info := some (paymentFailedFields env d) }, .ok ()) := by
  cases hf : firstDoc (st.whereStripeCustomerId inv.customer) with
  | none => left; simp [handlePaymentFailed, hf]
  | some uid =>
    cases hi : (st.user uid).info with
    | none => left; simp [handlePaymentFailed, hf, Store.updateInfo, hi]
    | some d =>
      right
      exact ⟨uid, d, rfl, hi, by simp [handlePaymentFailed, hf, Store.updateInfo, hi, paymentFailedFields]⟩

/-- The subscription branch of `handleCheckoutComplete`: the info document is
written, then the trial document is updated if it exists; if it does not, the
update rejects with NOT_FOUND after the info write. -/
theorem checkout_subscription_eq (env : Env) (s : Session) (st : Store) (uid : String)
    (sub : Subscription) (hu : s.metadata.userId = some uid) (hne : uid ≠ "")
    (hp : s.payment_status = "paid") (ht : s.metadata.type = some "subscription")
    (hr : env.subscriptionsRetrieve s.subscription = .ok sub) (ts te : Timestamp)
    (hs : Timestamp.fromMillis (sub.current_period_start * 1000) = .ok ts)
    (he : Timestamp.fromMillis (sub.current_period_end * 1000) = .ok te) :
    handleCheckoutComplete env s st =
      match (st.user uid).trial with
      | none => (st.setInfo uid (checkoutInfo env s sub), .error NOT_FOUND)
      | some t =>
        ((st.setInfo uid (checkoutInfo env s sub)).setUser uid
          { credits := (st.user uid).credits
            info := some (checkoutInfo env s sub)
            trial := some (convertedFields env t) }, .ok ()) := by
  cases hT : (st.user uid).trial with
  | none =>
    simp [handleCheckoutComplete, hu, hne, hp, ht, hr, Store.updateTrial, Store.setInfo,
      user_setUser_self, hT, checkoutInfo, hs, he, Except.toOption]
  | some t =>
    simp [handleCheckoutComplete, hu, hne, hp, ht, hr, Store.updateTrial, Store.setInfo,
      user_setUser_self, hT, checkoutInfo, convertedFields, hs, he, Except.toOption]

/-- The three ways `handleCheckoutComplete` can go: nothing is written, the
credits branch writes, or the subscription branch writes. -/
theorem checkout_cases (env : Env) (s : Session) (st : Store) :
    (handleCheckoutComplete env s st).1 = st ∨
    (∃ uid c, s.metadata.userId = some uid ∧ uid ≠ "" ∧ s.payment_status = "paid" ∧
      s.metadata.type = some "credits" ∧
      parseInt (s.metadata.credits.getD "undefined") = some c) ∨
    (∃ uid sub ts te, s.metadata.userId = some uid ∧ uid ≠ "" ∧ s.payment_status = "paid" ∧
      s.metadata.type = some "subscription" ∧
      env.subscriptionsRetrieve s.subscription = .ok sub ∧
      Timestamp.fromMillis (sub.current_period_start * 1000) = .ok ts ∧
      Timestamp.fromMillis (sub.current_period_end * 1000) = .ok te) := by
  cases hu : s.metadata.userId with
  | none => left; simp [handleCheckoutComplete, hu]
  | some uid =>
    by_cases hne : uid = ""
    · left; simp [handleCheckoutComplete, hu, hne]
    · by_cases hp : s.payment_status = "paid"
      · by_cases ht : s.metadata.type = some "credits"
        · cases hc : parseInt (s.metadata.credits.getD "undefined") with
          | none => left; simp [handleCheckoutComplete, hu, hne, hp, ht, hc]
          | some c => right; left; exact ⟨uid, c, rfl, hne, hp, ht, rfl⟩
        · by_cases ht2 : s.metadata.type = some "subscription"
          · cases hr : env.subscriptionsRetrieve s.subscription with
            | error e => left; simp [handleCheckoutComplete, hu, hne, hp, ht2, hr]
            | ok sub =>
              cases hs : Timestamp.fromMillis (sub.current_period_start * 1000) with
              | error e => left; simp [handleCheckoutComplete, hu, hne, hp, ht2, hr, hs]
              | ok ts =>
                cases he : Timestamp.fromMillis (sub.current_period_end * 1000) with
                | error e => left; simp [handleCheckoutComplete, hu, hne, hp, ht2, hr, hs, he]
                | ok te => right; right; exact ⟨uid, sub, ts, te, rfl, hne, hp, ht2, rfl, hs, he⟩
          · left; simp [handleCheckoutComplete, hu, hne, hp, ht, ht2]
      · left; simp [handleCheckoutComplete, hu, hne, hp]

theorem accessInvariant_setUser (st : Store) (uid : String) (ud : UserDocs)
    (h : AccessInvariant st)
    (hd : ∀ d, ud.info = some d → (d.hasAccess = some true ↔ d.status = some "active")) :
    AccessInvariant (st.setUser uid ud) := by
  intro v d hv
  rw [user_setUser] at hv
  by_cases e : v = uid
  · simp only [e, if_true] at hv
    exact hd d hv
  · simp only [e, if_false] at hv
    exact h v d hv

theorem reportCreditsOf_setUser_frame (st : Store) (uid v : String) (ud : UserDocs)
    (h : ud.credits = (st.user uid).credits) :
    reportCreditsOf (st.setUser uid ud) v = reportCreditsOf st v := by
  unfold reportCreditsOf
  rw [user_setUser]
  by_cases e : v = uid
  · simp [e, h]
  · simp [e]

theorem user_eq_empty_of_not_mem (st : Store) (u : String) (h : u ∉ st.uids) :
    st.user u = {} := by
  induction st with
  | nil => rfl
  | cons p rest ih =>
    obtain ⟨k, w⟩ := p
    simp only [Store.uids, List.map_cons, List.mem_cons, not_or] at h
    have hk : ¬ k = u := fun e => h.1 e.symm
    simp only [Store.user, hk, if_false]
    exact ih h.2

theorem mem_uids_of_info (st : Store) (u : String) (d : InfoDoc)
    (h : (st.user u).info = some d) : u ∈ st.uids := by
  by_contra hn
  rw [user_eq_empty_of_not_mem st u hn] at h
  simp at h

theorem mem_whereStripeSubscriptionId (st : Store) (id u : String) :
    u ∈ st.whereStripeSubscriptionId id ↔
      ∃ d, (st.user u).info = some d ∧ d.stripeSubscriptionId = some id := by
  unfold Store.whereStripeSubscriptionId
  rw [List.mem_filter]
  constructor
  · rintro ⟨_, h⟩
    cases hi : (st.user u).info with
    | none => simp [hi] at h
    | some d => exact ⟨d, rfl, by simpa [hi] using h⟩
  · rintro ⟨d, hi, hd⟩
    exact ⟨mem_uids_of_info st u d hi, by simp [hi, hd]⟩

theorem mem_whereStripeCustomerId (st : Store) (id u : String) :
    u ∈ st.whereStripeCustomerId id ↔
      ∃ d, (st.user u).info = some d ∧ d.stripeCustomerId = some id := by
  unfold Store.whereStripeCustomerId
  rw [List.mem_filter]
  constructor
  · rintro ⟨_, h⟩
    cases hi : (st.user u).info with
    | none => simp [hi] at h
    | some d => exact ⟨d, rfl, by simpa [hi] using h⟩
  · rintro ⟨d, hi, hd⟩
    exact ⟨mem_uids_of_info st u d hi, by simp [hi, hd]⟩

theorem firstDoc_subscription_none (st : Store) (id : String)
    (h : ∀ uid d, (st.user uid).info = some d → d.stripeSubscriptionId ≠ some id) :
    firstDoc (st.whereStripeSubscriptionId id) = none := by
  rw [firstDoc_eq_none, List.eq_nil_iff_forall_not_mem]
  intro u hu
  obtain ⟨d, hi, hd⟩ := (mem_whereStripeSubscriptionId st id u).1 hu
  exact h u d hi hd

theorem firstDoc_customer_none (st : Store) (id : String)
    (h : ∀ uid d, (st.user uid).info = some d → d.stripeCustomerId ≠ some id) :
    firstDoc (st.whereStripeCustomerId id) = none := by
  rw [firstDoc_eq_none, List.eq_nil_iff_forall_not_mem]
  intro u hu
  obtain ⟨d, hi, hd⟩ := (mem_whereStripeCustomerId st id u).1 hu
  exact h u d hi hd

/-- The reverse lookup returns the one user that carries the subscription id. -/
theorem firstDoc_subscription_unique (st : Store) (id u : String) (d : InfoDoc)
    (hi : (st.user u).info = some d) (hd : d.stripeSubscriptionId = some id)
    (huniq : ∀ v e, (st.user v).info = some e → e.stripeSubscriptionId = some id → v = u) :
    firstDoc (st.whereStripeSubscriptionId id) = some u := by
  cases hf : firstDoc (st.whereStripeSubscriptionId id) with
  | none =>
    rw [firstDoc_eq_none] at hf
    have hm := (mem_whereStripeSubscriptionId st id u).2 ⟨d, hi, hd⟩
    rw [hf] at hm
    simp at hm
  | some v =>
    obtain ⟨e, hie, hde⟩ := (mem_whereStripeSubscriptionId st id v).1 (firstDoc_mem _ v hf)
    rw [huniq v e hie hde]

/-! ## The info record: invariant and reverse lookups -/

theorem exInfoStore_info (uid : String) (d : InfoDoc) (h : (exInfoStore.user uid).info = some d) :
    uid = "u1" ∧ d.hasAccess = some true ∧ d.status = some "active" ∧
      d.stripeSubscriptionId = some "sub_1" ∧ d.stripeCustomerId = some "cus_1" := by
  by_cases e : "u1" = uid
  · subst e
    simp [exInfoStore, Store.user] at h
    subst h
    simp
  · simp [exInfoStore, Store.user, e] at h

/-- C5: hasAccess is true iff status is active is preserved by every
reconciliation handler: if every subscription info record of the store
satisfies it, then so does every info record of the store after
handleCheckoutComplete, handleSubscriptionCancelled, handleSubscriptionUpdated
or handlePaymentFailed on any input; and handleSubscriptionUpdated with a
subscription sub_1 of status past_due (its period values within the range of a
Firestore Timestamp) returns normally and leaves the record that carries
stripeSubscriptionId sub_1 with status past_due and hasAccess false: the one
record that carries it, and, when several do, the record the lookup returns. -/
theorem C5_hasAccess_iff_active_invariant :
    (∀ (env : Env) (st : Store), AccessInvariant st →
      (∀ s : Session, AccessInvariant (handleCheckoutComplete env s st).1) ∧
      (∀ sub : Subscription, AccessInvariant (handleSubscriptionCancelled env sub st).1) ∧
      (∀ sub : Subscription, AccessInvariant (handleSubscriptionUpdated env sub st).1) ∧
      (∀ inv : Invoice, AccessInvariant (handlePaymentFailed env inv st).1)) ∧
    (∀ (env : Env) (st : Store) (sub : Subscription) (u : String) (d0 : InfoDoc),
      sub.id = "sub_1" → sub.status = "past_due" →
      MIN_SECONDS ≤ sub.current_period_start ∧ sub.current_period_start ≤ MAX_SECONDS →
      MIN_SECONDS ≤ sub.current_period_end ∧ sub.current_period_end ≤ MAX_SECONDS →
      (st.user u).info = some d0 → d0.stripeSubscriptionId = some "sub_1" →
      (∀ v e, (st.user v).info = some e → e.stripeSubscriptionId = some "sub_1" → v = u) →
      (handleSubscriptionUpdated env sub st).2 = .ok () ∧
      ∃ d, ((handleSubscriptionUpdated env sub st).1.user u).info = some d ∧
        d.status = some "past_due" ∧ d.hasAccess = some false) ∧
    (∀ (env : Env) (st : Store) (sub : Subscription) (u : String),
      sub.id = "sub_1" → sub.status = "past_due" →
      MIN_SECONDS ≤ sub.current_period_start ∧ sub.current_period_start ≤ MAX_SECONDS →
      MIN_SECONDS ≤ sub.current_period_end ∧ sub.current_period_end ≤ MAX_SECONDS →
      firstDoc (st.whereStripeSubscriptionId "sub_1") = some u →
      (handleSubscriptionUpdated env sub st).2 = .ok () ∧
      ∃ d, ((handleSubscriptionUpdated env sub st).1.user u).info = some d ∧
        d.stripeSubscriptionId = some "sub_1" ∧
        d.status = some "past_due" ∧ d.hasAccess = some false) := by
  refine ⟨?_, ?_, ?_⟩
  · intro env st hinv
    refine ⟨?_, ?_, ?_, ?_⟩
    · intro s
      rcases checkout_cases env s st with h | ⟨uid, c, hu, hne, hp, ht, hc⟩ |
        ⟨uid, sub, ts, te, hu, hne, hp, ht, hr, hs, he⟩
      · rw [h]; exact hinv
      · rw [checkout_credits_eq env s st uid c hu hne hp ht hc]
        exact accessInvariant_setUser st uid _ hinv (fun d hd => hinv uid d hd)
      · rw [checkout_subscription_eq env s st uid sub hu hne hp ht hr ts te hs he]
        have h1 : AccessInvariant (st.setInfo uid (checkoutInfo env s sub)) :=
          accessInvariant_setUser st uid _ hinv (by
            intro d hd
            simp only [Option.some.injEq] at hd
            subst hd
            simp [checkoutInfo])
        cases (st.user uid).trial with
        | none => exact h1
        | some t =>
          exact accessInvariant_setUser _ uid _ h1 (by
            intro d hd
            simp only [Option.some.injEq] at hd
            subst hd
            simp [checkoutInfo])
    · intro sub
      rcases handleSubscriptionCancelled_store env sub st with h | ⟨uid, d, _, _, h⟩
      · rw [h]; exact hinv
      · rw [h]
        exact accessInvariant_setUser st uid _ hinv (by
          intro d2 hd
          simp only [Option.some.injEq] at hd
          subst hd
          simp [cancelledFields])
    · intro sub
      rcases handleSubscriptionUpdated_store env sub st with h | ⟨uid, d, _, _, h⟩
      · rw [h]; exact hinv
      · rw [h]
        exact accessInvariant_setUser st uid _ hinv (by
          intro d2 hd
          simp only [Option.some.injEq] at hd
          subst hd
          simp [updatedFields])
    · intro inv
      rcases handlePaymentFailed_store env inv st with h | ⟨uid, d, _, _, h⟩
      · rw [h]; exact hinv
      · rw [h]
        exact accessInvariant_setUser st uid _ hinv (by
          intro d2 hd
          simp only [Option.some.injEq] at hd
          subst hd
          simp [paymentFailedFields])
  · intro env st sub u d0 hid hstatus hstart hend hi hd huniq
    have hf : firstDoc (st.whereStripeSubscriptionId sub.id) = some u := by
      rw [hid]
      exact firstDoc_subscription_unique st "sub_1" u d0 hi hd huniq
    have h := handleSubscriptionUpdated_found env sub st u d0 _ _ hf hi
      (fromMillis_seconds _ hstart.1 hstart.2) (fromMillis_seconds _ hend.1 hend.2)
    rw [h]
    refine ⟨rfl, updatedFields env sub d0, by simp [user_setUser_self], ?_, ?_⟩
    · simp [updatedFields, hstatus]
    · simp [updatedFields, hstatus]
  · intro env st sub u hid hstatus hstart hend hf
    obtain ⟨d0, hi, hd⟩ := (mem_whereStripeSubscriptionId st "sub_1" u).1 (firstDoc_mem _ u hf)
    rw [← hid] at hf
    have h := handleSubscriptionUpdated_found env sub st u d0 _ _ hf hi
      (fromMillis_seconds _ hstart.1 hstart.2) (fromMillis_seconds _ hend.1 hend.2)
    rw [h]
    refine ⟨rfl, updatedFields env sub d0, by simp [user_setUser_self], ?_, ?_, ?_⟩
    · simp [updatedFields, hd]
    · simp [updatedFields, hstatus]
    · simp [updatedFields, hstatus]

/-- The invariant holds in the example store and after a cancellation, and the
past due update of sub_1 (periods in 2023, inside the Timestamp range) reaches
the record of u1, which is the only one that carries sub_1 and the one the
lookup returns. -/
theorem C5_hasAccess_iff_active_invariant_witness :
    AccessInvariant (handleSubscriptionCancelled exEnv exSubscription exInfoStore).1 ∧
    ((handleSubscriptionUpdated exEnv exPastDue exInfoStore).2 = .ok () ∧
      ∃ d, ((handleSubscriptionUpdated exEnv exPastDue exInfoStore).1.user "u1").info = some d ∧
        d.status = some "past_due" ∧ d.hasAccess = some false) ∧
    ((handleSubscriptionUpdated exEnv exPastDue exInfoStore).2 = .ok () ∧
      ∃ d, ((handleSubscriptionUpdated exEnv exPastDue exInfoStore).1.user "u1").info = some d ∧
        d.stripeSubscriptionId = some "sub_1" ∧
        d.status = some "past_due" ∧ d.hasAccess = some false) :=
  have hinv : AccessInvariant exInfoStore := fun uid d h => by
    obtain ⟨_, h1, h2, _⟩ := exInfoStore_info uid d h
    simp [h1, h2]
  ⟨(C5_hasAccess_iff_active_invariant.1 exEnv exInfoStore hinv).2.1 exSubscription,
    C5_hasAccess_iff_active_invariant.2.1 exEnv exInfoStore exPastDue "u1"
      { hasAccess := some true
        status := some "active"
        subscriptionType := some "monthly_individual"
        stripeSubscriptionId := some "sub_1"
        stripeCustomerId := some "cus_1" }
      rfl rfl (by decide) (by decide) rfl rfl (fun v e h _ => (exInfoStore_info v e h).1),
    C5_hasAccess_iff_active_invariant.2.2 exEnv exInfoStore exPastDue "u1"
      rfl rfl (by decide) (by decide) (by decide)⟩

/-- C6: a reverse lookup that finds no record is a silent no-op.  When no info
record carries the id of the subscription, handleSubscriptionCancelled and
handleSubscriptionUpdated return normally with the store unchanged; when no
info record carries the customer of the invoice, handlePaymentFailed does the
same; and the webhook answers such a verified event with 200 and the body
received true, the store unchanged. -/
theorem C6_lookup_miss_is_noop (env : Env) (st : Store) :
    (∀ sub : Subscription,
      (∀ uid d, (st.user uid).info = some d → d.stripeSubscriptionId ≠ some sub.id) →
      handleSubscriptionCancelled env sub st = (st, .ok ()) ∧
      handleSubscriptionUpdated env sub st = (st, .ok ()) ∧
      ∀ req : Request,
        (env.constructEvent req.rawBody req.signature = .ok (.customerSubscriptionDeleted sub) ∨
          env.constructEvent req.rawBody req.signature = .ok (.customerSubscriptionUpdated sub)) →
        (stripeWebhook env req st).response = { status := 200, body := .json true } ∧
          (stripeWebhook env req st).store = st) ∧
    (∀ inv : Invoice,
      (∀ uid d, (st.user uid).info = some d → d.stripeCustomerId ≠ some inv.customer) →
      handlePaymentFailed env inv st = (st, .ok ()) ∧
      ∀ req : Request,
        env.constructEvent req.rawBody req.signature = .ok (.invoicePaymentFailed inv) →
        (stripeWebhook env req st).response = { status := 200, body := .json true } ∧
          (stripeWebhook env req st).store = st) := by
  constructor
  · intro sub hnone
    have hf := firstDoc_subscription_none st sub.id hnone
    have hc : handleSubscriptionCancelled env sub st = (st, .ok ()) := by
      simp [handleSubscriptionCancelled, hf]
    have hu : handleSubscriptionUpdated env sub st = (st, .ok ()) := by
      simp [handleSubscriptionUpdated, hf]
    refine ⟨hc, hu, ?_⟩
    intro req hev
    rcases hev with hev | hev
    · simp [stripeWebhook, hev, dispatch, hc]
    · simp [stripeWebhook, hev, dispatch, hu]
  · intro inv hnone
    have hf := firstDoc_customer_none st inv.customer hnone
    have hp : handlePaymentFailed env inv st = (st, .ok ()) := by
      simp [handlePaymentFailed, hf]
    refine ⟨hp, ?_⟩
    intro req hev
    simp [stripeWebhook, hev, dispatch, hp]

/-- An unknown subscription and an unknown customer leave the example store as it is, and the webhook answers 200. -/
theorem C6_lookup_miss_is_noop_witness :
    handleSubscriptionCancelled exEnv exUnknownSubscription exInfoStore = (exInfoStore, .ok ()) ∧
    ((stripeWebhook (exEnvVerified (.customerSubscriptionDeleted exUnknownSubscription))
        exRequest exInfoStore).response = { status := 200, body := .json true } ∧
      (stripeWebhook (exEnvVerified (.customerSubscriptionDeleted exUnknownSubscription))
        exRequest exInfoStore).store = exInfoStore) ∧
    handlePaymentFailed exEnv exUnknownInvoice exInfoStore = (exInfoStore, .ok ()) :=
  have hs : ∀ uid d, (exInfoStore.user uid).info = some d →
      d.stripeSubscriptionId ≠ some exUnknownSubscription.id := fun uid d h => by
    rw [(exInfoStore_info uid d h).2.2.2.1]
    decide
  have hc : ∀ uid d, (exInfoStore.user uid).info = some d →
      d.stripeCustomerId ≠ some exUnknownInvoice.customer := fun uid d h => by
    rw [(exInfoStore_info uid d h).2.2.2.2]
    decide
  ⟨((C6_lookup_miss_is_noop exEnv exInfoStore).1 exUnknownSubscription hs).1,
    ((C6_lookup_miss_is_noop (exEnvVerified (.customerSubscriptionDeleted exUnknownSubscription))
      exInfoStore).1 exUnknownSubscription hs).2.2 exRequest (Or.inl rfl),
    ((C6_lookup_miss_is_noop exEnv exInfoStore).2 exUnknownInvoice hc).1⟩

/-- C7: the response of the webhook is determined by verification and by the
outcome of the handler.  If verification fails the status is 400, no handler is
called and the store is unchanged; if it succeeds and the handler of the switch
rejects, the status is 500; if the handler returns normally the response is 200
with the body received true; and a verified event whose type is none of the four
known type strings gets 200 received true, no handler is called and the store
is unchanged. -/
theorem C7_webhook_response (env : Env) (req : Request) (st : Store) :
    (∀ message, env.constructEvent req.rawBody req.signature = .error message →
      (stripeWebhook env req st).response.status = 400 ∧
      (stripeWebhook env req st).dispatched = none ∧
      (stripeWebhook env req st).store = st) ∧
    (∀ event, env.constructEvent req.rawBody req.signature = .ok event →
      (∀ e, (dispatch env event st).2.2 = .error e →
        (stripeWebhook env req st).response.status = 500) ∧
      ((dispatch env event st).2.2 = .ok () →
        (stripeWebhook env req st).response = { status := 200, body := .json true }) ∧
      (event.type ∉ knownTypes →
        (stripeWebhook env req st).response = { status := 200, body := .json true } ∧
        (stripeWebhook env req st).dispatched = none ∧
        (stripeWebhook env req st).store = st)) := by
  constructor
  · intro message h
    simp [stripeWebhook, h]
  · intro event h
    refine ⟨?_, ?_, ?_⟩
    · intro e he
      rcases hd : dispatch env event st with ⟨hn, st1, r⟩
      rw [hd] at he
      simp only at he
      subst he
      simp [stripeWebhook, h, hd]
    · intro he
      rcases hd : dispatch env event st with ⟨hn, st1, r⟩
      rw [hd] at he
      simp only at he
      subst he
      simp [stripeWebhook, h, hd]
    · intro hty
      cases event with
      | checkoutSessionCompleted o => exact absurd (by simp [Event.type, knownTypes]) hty
      | customerSubscriptionDeleted o => exact absurd (by simp [Event.type, knownTypes]) hty
      | customerSubscriptionUpdated o => exact absurd (by simp [Event.type, knownTypes]) hty
      | invoicePaymentFailed o => exact absurd (by simp [Event.type, knownTypes]) hty
      | other t ht => simp [stripeWebhook, h, dispatch]

/-- The four outcomes of the webhook on example requests: 400, 500, 200, and 200 for an event of another type. -/
theorem C7_webhook_response_witness :
    ((stripeWebhook exEnv exRequest exStore).response.status = 400 ∧
      (stripeWebhook exEnv exRequest exStore).dispatched = none ∧
      (stripeWebhook exEnv exRequest exStore).store = exStore) ∧
    (stripeWebhook (exEnvProviderDown (.checkoutSessionCompleted exSubscriptionSession)) exRequest
      exStore).response.status = 500 ∧
    (stripeWebhook (exEnvVerified (.checkoutSessionCompleted exCreditsSession)) exRequest
      exStore).response = { status := 200, body := .json true } ∧
    ((stripeWebhook (exEnvVerified exOtherEvent) exRequest exStore).response
        = { status := 200, body := .json true } ∧
      (stripeWebhook (exEnvVerified exOtherEvent) exRequest exStore).dispatched = none ∧
      (stripeWebhook (exEnvVerified exOtherEvent) exRequest exStore).store = exStore) :=
  ⟨(C7_webhook_response exEnv exRequest exStore).1 _ rfl,
    ((C7_webhook_response (exEnvProviderDown (.checkoutSessionCompleted exSubscriptionSession))
      exRequest exStore).2 _ rfl).1 _ rfl,
    ((C7_webhook_response (exEnvVerified (.checkoutSessionCompleted exCreditsSession)) exRequest
      exStore).2 _ rfl).2.1 rfl,
    ((C7_webhook_response (exEnvVerified exOtherEvent) exRequest exStore).2 _ rfl).2.2
      (by decide)⟩

/-! ## reportCredits under the four handlers -/

/-- C8 as stated fails: a paid credits session whose metadata.credits is the
string -5 takes the reportCredits of u1 from 10 down to 5. -/
theorem C8_counterexample :
    reportCreditsOf exStore "u1" = 10 ∧
    reportCreditsOf (handleCheckoutComplete exEnv exNegativeSession exStore).1 "u1" = 5 ∧
    reportCreditsOf (handleCheckoutComplete exEnv exNegativeSession exStore).1 "u1"
      < reportCreditsOf exStore "u1" := by
  have h := checkout_credits_reportCredits exEnv exNegativeSession exStore "u1" (-5) rfl
    (by decide) rfl rfl (by decide)
  have h0 : reportCreditsOf exStore "u1" = 10 := by decide
  rw [h, h0]
  decide

/-- C8, amended: handleSubscriptionCancelled, handleSubscriptionUpdated and
handlePaymentFailed leave the reportCredits of every user as it was, and after
handleCheckoutComplete the reportCredits of every user is greater than or equal
to its value before, provided that the session is not a paid credits session
whose metadata.credits parses to a negative integer (such a session lowers
the reportCredits of its user by that amount). -/
theorem C8_reportCredits_not_decremented (env : Env) (st : Store) (uid : String) :
    (∀ sub : Subscription,
      reportCreditsOf (handleSubscriptionCancelled env sub st).1 uid = reportCreditsOf st uid) ∧
    (∀ sub : Subscription,
      reportCreditsOf (handleSubscriptionUpdated env sub st).1 uid = reportCreditsOf st uid) ∧
    (∀ inv : Invoice,
      reportCreditsOf (handlePaymentFailed env inv st).1 uid = reportCreditsOf st uid) ∧
    (∀ s : Session,
      (s.payment_status = "paid" → s.metadata.type = some "credits" →
        ∀ c, parseInt (s.metadata.credits.getD "undefined") = some c → 0 ≤ c) →
      reportCreditsOf st uid ≤ reportCreditsOf (handleCheckoutComplete env s st).1 uid) := by
  refine ⟨?_, ?_, ?_, ?_⟩
  · intro sub
    rcases handleSubscriptionCancelled_store env sub st with h | ⟨u, d, _, _, h⟩
    · rw [h]
    · rw [h]; exact reportCreditsOf_setUser_frame st u uid _ rfl
  · intro sub
    rcases handleSubscriptionUpdated_store env sub st with h | ⟨u, d, _, _, h⟩
    · rw [h]
    · rw [h]; exact reportCreditsOf_setUser_frame st u uid _ rfl
  · intro inv
    rcases handlePaymentFailed_store env inv st with h | ⟨u, d, _, _, h⟩
    · rw [h]
    · rw [h]; exact reportCreditsOf_setUser_frame st u uid _ rfl
  · intro s hs
    rcases checkout_cases env s st with h | ⟨u, c, hu, hne, hp, ht, hc⟩ |
      ⟨u, sub, ts, te, hu, hne, hp, ht, hr, hs, he⟩
    · rw [h]
    · by_cases e : uid = u
      · subst e
        rw [checkout_credits_reportCredits env s st uid c hu hne hp ht hc]
        have := hs hp ht c hc
        omega
      · rw [checkout_credits_eq env s st u c hu hne hp ht hc]
        simp only [reportCreditsOf, Store.setMergeCredits, user_setUser_ne _ _ _ _ e]
        exact le_refl _
    · rw [checkout_subscription_eq env s st u sub hu hne hp ht hr ts te hs he]
      have h1 : reportCreditsOf (st.setInfo u (checkoutInfo env s sub)) uid
          = reportCreditsOf st uid := reportCreditsOf_setUser_frame st u uid _ rfl
      cases (st.user u).trial with
      | none => exact le_of_eq h1.symm
      | some t =>
        have h2 : reportCreditsOf ((st.setInfo u (checkoutInfo env s sub)).setUser u
            { credits := (st.user u).credits
              info := some (checkoutInfo env s sub)
              trial := some (convertedFields env t) }) uid
            = reportCreditsOf (st.setInfo u (checkoutInfo env s sub)) uid :=
          reportCreditsOf_setUser_frame _ u uid _ (by simp [Store.setInfo, user_setUser_self])
        exact le_of_eq (h2.trans h1).symm

/-- The scenario session (10 credits) does not lower the credits of u1. -/
theorem C8_reportCredits_not_decremented_witness :
    reportCreditsOf exStore "u1"
      ≤ reportCreditsOf (handleCheckoutComplete exEnv exCreditsSession exStore).1 "u1" :=
  (C8_reportCredits_not_decremented exEnv exStore "u1").2.2.2 exCreditsSession
    (fun _ _ c hc => by
      have h10 : parseInt (exCreditsSession.metadata.credits.getD "undefined") = some 10 := by
        decide
      rw [h10] at hc
      injection hc with hc
      omega)

/-! ## The subscription branch of checkout completed -/

/-- The subscription branch for a user who has a trial record, with period
values inside the Timestamp range: the handler returns normally, the info
record has the fields of the session and of the retrieved subscription, and the
trial record is converted. -/
theorem checkout_subscription_with_trial (env : Env) (s : Session) (st : Store) (uid : String)
    (sub : Subscription) (t : TrialDoc) (hu : s.metadata.userId = some uid) (hne : uid ≠ "")
    (hp : s.payment_status = "paid") (ht : s.metadata.type = some "subscription")
    (hr : env.subscriptionsRetrieve s.subscription = .ok sub)
    (hstart : MIN_SECONDS ≤ sub.current_period_start ∧ sub.current_period_start ≤ MAX_SECONDS)
    (hend : MIN_SECONDS ≤ sub.current_period_end ∧ sub.current_period_end ≤ MAX_SECONDS)
    (htrial : (st.user uid).trial = some t) :
    (handleCheckoutComplete env s st).2 = .ok () ∧
    ∃ d t2, ((handleCheckoutComplete env s st).1.user uid).info = some d ∧
      ((handleCheckoutComplete env s st).1.user uid).trial = some t2 ∧
      d.hasAccess = some true ∧ d.status = some "active" ∧
      d.stripeSubscriptionId = s.subscription ∧ d.stripeCustomerId = s.customer ∧
      d.currentPeriodStart.map Timestamp.toMillis = some (sub.current_period_start * 1000) ∧
      d.currentPeriodEnd.map Timestamp.toMillis = some (sub.current_period_end * 1000) ∧
      d.cancelAtPeriodEnd = some sub.cancel_at_period_end ∧
      t2.status = some "converted" ∧ t2.convertedTo = some "monthly_individual" := by
  have hs := fromMillis_seconds _ hstart.1 hstart.2
  have he := fromMillis_seconds _ hend.1 hend.2
  rw [checkout_subscription_eq env s st uid sub hu hne hp ht hr _ _ hs he, htrial]
  refine ⟨rfl, checkoutInfo env s sub, convertedFields env t, ?_, ?_, rfl, rfl, rfl, rfl, ?_, ?_,
    rfl, rfl, rfl⟩
  · simp [user_setUser_self]
  · simp [user_setUser_self]
  · simp [checkoutInfo, hs, Except.toOption, toMillis_seconds]
  · simp [checkoutInfo, he, Except.toOption, toMillis_seconds]

/-- C9 fails on the code for a user with no trial record: on the paid
subscription session of u1, in a store where u1 has no trial document, the info
record is written, then the update of the trial document rejects with
NOT_FOUND, so handleCheckoutComplete does not complete and the webhook answers
500; the user still has no trial record. -/
theorem C9_no_trial_record_rejects :
    (exStore.user "u1").trial = none ∧
    (handleCheckoutComplete exEnv exSubscriptionSession exStore).2 = .error NOT_FOUND ∧
    ((handleCheckoutComplete exEnv exSubscriptionSession exStore).1.user "u1").info
      = some (checkoutInfo exEnv exSubscriptionSession exSubscription) ∧
    ((handleCheckoutComplete exEnv exSubscriptionSession exStore).1.user "u1").trial = none ∧
    (stripeWebhook (exEnvVerified (.checkoutSessionCompleted exSubscriptionSession)) exRequest
      exStore).response.status = 500 := by
  have htrial : (exStore.user "u1").trial = none := by decide
  have hs := fromMillis_seconds exSubscription.current_period_start (by decide) (by decide)
  have he := fromMillis_seconds exSubscription.current_period_end (by decide) (by decide)
  have h := checkout_subscription_eq exEnv exSubscriptionSession exStore "u1" exSubscription rfl
    (by decide) rfl rfl rfl _ _ hs he
  rw [htrial] at h
  have hw := checkout_subscription_eq (exEnvVerified (.checkoutSessionCompleted exSubscriptionSession))
    exSubscriptionSession exStore "u1" exSubscription rfl (by decide) rfl rfl rfl _ _ hs he
  rw [htrial] at hw
  refine ⟨htrial, ?_, ?_, ?_, ?_⟩
  · rw [h]
  · rw [h]
    simp [Store.setInfo, user_setUser_self]
  · rw [h]
    simp [Store.setInfo, user_setUser_self, htrial]
  · simp [stripeWebhook, exEnvVerified, dispatch] at hw ⊢
    simp [hw]

/-! ## Callables: authentication and validation -/

theorem wrapped_checkout_ne (m : String) :
    "Unable to create checkout session: " ++ m ≠ "priceId and credits are required" := by
  intro h
  have := congrArg (fun s => s.data.head?) h
  simp [String.data_append] at this

theorem wrapped_subscription_ne (m : String) :
    "Unable to create subscription: " ++ m ≠ "priceId is required" := by
  intro h
  have := congrArg (fun s => s.data.head?) h
  simp [String.data_append] at this

/-- C10 as stated fails: with an authenticated caller, a priceId and credits
present with the value 0, createCheckoutSession fails with the validation
error although neither field is missing. -/
theorem C10_counterexample :
    exZeroCreditsRequest.auth ≠ none ∧
    (∃ d, exZeroCreditsRequest.data = some d ∧
      d.priceId ≠ .undefined ∧ d.priceId ≠ .null ∧ d.credits ≠ .undefined ∧ d.credits ≠ .null) ∧
    createCheckoutSession exEnv exZeroCreditsRequest
      = { effects := [], result := .error "priceId and credits are required" } := by
  refine ⟨by decide, ⟨_, rfl, by decide, by decide, by decide, by decide⟩, rfl⟩

/-- C10, amended: each callable fails with the error User must be authenticated
and makes no provider call and no store read whenever request.auth is absent;
and for an authenticated caller whose request.data is an object,
createCheckoutSession fails with priceId and credits are required exactly when
priceId or credits is falsy (absent, null, false, 0 or the empty string), and
createSubscription fails with priceId is required exactly when priceId is
falsy, in both cases with no provider call and the message unwrapped. -/
theorem C10_callable_authentication_and_validation (env : Env) :
    (∀ (req : CallableRequest) (st : Store), req.auth = none →
      createCheckoutSession env req
        = { effects := [], result := .error "User must be authenticated" } ∧
      createSubscription env req
        = { effects := [], result := .error "User must be authenticated" } ∧
      createBillingPortalSession env req st
        = { effects := [], result := .error "User must be authenticated" }) ∧
    (∀ (req : CallableRequest) (a : Auth) (d : CallData),
      req.auth = some a → req.data = some d →
      ((createCheckoutSession env req).result = .error "priceId and credits are required" ↔
        (d.priceId.truthy = false ∨ d.credits.truthy = false)) ∧
      ((d.priceId.truthy = false ∨ d.credits.truthy = false) →
        (createCheckoutSession env req).effects = []) ∧
      ((createSubscription env req).result = .error "priceId is required" ↔
        d.priceId.truthy = false) ∧
      (d.priceId.truthy = false → (createSubscription env req).effects = [])) := by
  constructor
  · intro req st h
    simp [createCheckoutSession, createSubscription, createBillingPortalSession, h]
  · intro req a d ha hd
    refine ⟨?_, ?_, ?_, ?_⟩
    · constructor
      · intro h
        by_contra hn
        simp only [not_or, Bool.not_eq_false] at hn
        simp only [createCheckoutSession, ha, hd, hn.1, hn.2] at h
        revert h
        cases env.checkoutSessionsCreate _ with
        | ok session => simp
        | error m =>
          simp only [Bool.not_true, Bool.or_self, Bool.false_eq_true, if_false]
          intro h
          injection h with h
          exact wrapped_checkout_ne m h
      · intro h
        rcases h with h | h <;> simp [createCheckoutSession, ha, hd, h]
    · intro h
      rcases h with h | h <;> simp [createCheckoutSession, ha, hd, h]
    · constructor
      · intro h
        by_contra hn
        simp only [Bool.not_eq_false] at hn
        simp only [createSubscription, ha, hd, hn] at h
        revert h
        cases env.checkoutSessionsCreate _ with
        | ok session => simp
        | error m =>
          simp only [Bool.not_true, Bool.false_eq_true, if_false]
          intro h
          injection h with h
          exact wrapped_subscription_ne m h
      · intro h
        simp [createSubscription, ha, hd, h]
    · intro h
      simp [createSubscription, ha, hd, h]

/-- An anonymous request is rejected by all three callables, and the validation error of a request with priceId and 10 credits is tied to falsiness. -/
theorem C10_callable_authentication_and_validation_witness :
    (createCheckoutSession exEnv exAnonymousRequest
        = { effects := [], result := .error "User must be authenticated" } ∧
      createSubscription exEnv exAnonymousRequest
        = { effects := [], result := .error "User must be authenticated" } ∧
      createBillingPortalSession exEnv exAnonymousRequest exInfoStore
        = { effects := [], result := .error "User must be authenticated" }) ∧
    ((createCheckoutSession exEnv exCheckoutRequest).result
        = .error "priceId and credits are required" ↔
      ((JsValue.string "price_1").truthy = false ∨ (JsValue.number 10).truthy = false)) :=
  ⟨(C10_callable_authentication_and_validation exEnv).1 exAnonymousRequest exInfoStore rfl,
    ((C10_callable_authentication_and_validation exEnv).2 exCheckoutRequest _ _ rfl rfl).1⟩

end Weldqai
